import Mathlib

set_option linter.unusedVariables false

/-!
Shallow embedding of `src/python/runtime/local/submitter.py` (SQLFlow local
dispatch layer).  The five entry points `submit_local_train`,
`submit_local_pred`, `submit_local_evaluate`, `submit_local_explain` and
`submit_local_show_train` are translated directly from the Python source.
External collaborators (the backend train/predict/evaluate/explain routines,
the model registry `Model.load_from_db` / `read_metadata_from_db`, and the
`ProtobufWriter` result writer) are passed in as function parameters; the
dispatcher's observable behaviour is the backend call it makes (captured by
the `Call` type) or the Python exception it raises (captured by `PyExn`).
Python dicts are embedded as association lists with Python dict semantics
(key lookup, assignment that overwrites in place, insertion-ordered
iteration).
-/

/-- A Python dict with string keys and string values, as an insertion-ordered
association list (Python dicts preserve insertion order and have unique
keys). -/
abbrev Dict : Type := List (String × String)

/-- `d.get(k, deflt)` of a Python dict: the value at `k` when present,
otherwise the default. -/
def dictGet (d : Dict) (k deflt : String) : String :=
  match List.lookup k d with
  | some v => v
  | none => deflt

/-- `d[k] = v` on a Python dict: overwrite in place when `k` is present,
otherwise append at the end (insertion order). -/
def dictAssign : Dict → String → String → Dict
  | [], k, v => [(k, v)]
  | p :: rest, k, v =>
      if p.1 = k then (k, v) :: rest else p :: dictAssign rest k v

/-- The keys of a dict, in order. -/
def dictKeys (d : Dict) : List String :=
  d.map Prod.fst

/-- Python `str.lower()`: lowercase each character.  (Python's `lower` is
Unicode-aware; every string the dispatcher compares is ASCII, where
`Char.toLower` agrees with it.) -/
def pyLower (s : String) : String :=
  String.mk (s.data.map Char.toLower)

/-- Python `s.startswith(pre)`: `pre` is a prefix of `s`. -/
def pyStartswith (s pre : String) : Bool :=
  pre.data.isPrefixOf s.data

def pySplitCharAux (sep : Char) : List Char → List (List Char)
  | [] => [[]]
  | c :: rest =>
      match pySplitCharAux sep rest with
      | [] => [[c]]
      | grp :: groups =>
          if c = sep then [] :: grp :: groups else (c :: grp) :: groups

/-- Python `s.split(sep)` for a one-character separator (the source only
splits on `","`): cut at every occurrence of `sep`, keeping empty pieces, so
`"".split(",") = [""]` and `"a,,b".split(",") = ["a", "", "b"]`. -/
def pySplitChar (s : String) (sep : Char) : List String :=
  (pySplitCharAux sep s.data).map String.mk

def pyReplaceFuel (pat repl : List Char) : Nat → List Char → List Char
  | _, [] => []
  | 0, s => s
  | fuel + 1, c :: rest =>
      if pat.isPrefixOf (c :: rest) then
        repl ++ pyReplaceFuel pat repl fuel (rest.drop (pat.length - 1))
      else c :: pyReplaceFuel pat repl fuel rest

/-- Python `s.replace(pat, repl)` for a non-empty `pat` (the source only
replaces `"summary."`): replace every non-overlapping occurrence of `pat`,
scanning left to right — not only a leading occurrence.  The fuel argument
(`s.length`) only makes the recursion structural; it is never exhausted. -/
def pyReplace (s pat repl : String) : String :=
  String.mk (pyReplaceFuel pat.data repl.data s.data.length s.data)

/-- Modelled from the spec: `EstimatorType` (from `runtime.model.model`,
outside `src/`) is the enumerated model-type tag of a persisted model; the
spec names a gradient-boosting (XGBOOST) member and other members
(deep-learning, etc.). -/
inductive EstimatorType : Type
  | TENSORFLOW
  | XGBOOST
  | PAIML
deriving DecidableEq, Repr

/-- Modelled from the spec: the string form of a type tag, as interpolated by
`"{}".format(...)` into the `NotImplementedError` message. -/
def EstimatorType.pyStr : EstimatorType → String
  | EstimatorType.TENSORFLOW => "TENSORFLOW"
  | EstimatorType.XGBOOST => "XGBOOST"
  | EstimatorType.PAIML => "PAIML"

/-- Modelled from the spec: a field descriptor of a feature column
(`runtime.feature.column`, outside `src/`); the dispatcher reads only its
`name`. -/
structure FieldDesc : Type where
  name : String
deriving DecidableEq, Repr

/-- Modelled from the spec: a feature-column descriptor
(`runtime.feature.column.FeatureColumn`, outside `src/`); the dispatcher
calls only `get_field_desc()` and indexes its first element. -/
structure FeatureColumn : Type where
  field_desc : List FieldDesc
deriving DecidableEq, Repr

def FeatureColumn.get_field_desc (fc : FeatureColumn) : List FieldDesc :=
  fc.field_desc

/-- A value stored in a model's metadata map: either a feature column (what
`isinstance(x, FeatureColumn)` accepts) or some other Python value,
represented by its repr string (what `isinstance` rejects). -/
inductive MetaValue : Type
  | fc (f : FeatureColumn)
  | other (repr : String)
deriving DecidableEq, Repr

/-- Modelled from the spec: a model descriptor held by the registry
(`runtime.model.model.Model`, outside `src/`), exposing a type tag via
`get_type()` and metadata via `get_meta(key)`. -/
structure Model : Type where
  typ : EstimatorType
  meta : List (String × MetaValue)
deriving DecidableEq, Repr

def Model.get_type (m : Model) : EstimatorType :=
  m.typ

def Model.get_meta (m : Model) (k : String) : Option MetaValue :=
  List.lookup k m.meta

/-- A Python exception raised by a dispatch function. -/
inductive PyExn : Type
  | notImplementedError (msg : String)
  | valueError (msg : String)
  | assertionError
  | indexError
deriving DecidableEq, Repr

/-- The argument bundle a train routine receives; field names are the keyword
names used at the call site in `submit_local_train`. -/
structure TrainArgs : Type where
  original_sql : String
  model_image : String
  estimator_string : String
  datasource : String
  select : String
  validation_select : String
  model_params : Dict
  train_params : Dict
  validation_params : Dict
  feature_column_map : String
  label_column : String
  save : String
  load : String
deriving DecidableEq, Repr

/-- A call made to one of the gradient-boosting backend routines, with its
positional arguments in call-site order. -/
inductive Call : Type
  | xgboostPred (datasource select result_table label_column : String)
      (model : Model)
  | xgboostEvaluate (datasource select result_table : String) (model : Model)
      (pred_label_name : String) (validation_metrics : List String)
  | xgboostExplain (datasource select explainer : String)
      (summary_params : Dict) (result_table : String) (model : Model)
deriving DecidableEq, Repr

/-- `msg` contains `sub` as a substring. -/
def strContains (msg sub : String) : Prop :=
  ∃ a b, msg = a ++ sub ++ b

/-- Which of the two train routines `submit_local_train` assigns to
`train_func` (line 76: `if estimator_string.lower().startswith("xgboost")`).
-/
inductive TrainRoutine : Type
  | xgboostTrain
  | tfTrain
deriving DecidableEq, Repr

/-- `submit_local_train`, lines 26-93 of the source.  The two backend train
routines are parameters (`xgboost_train`, `tf_train`); the function picks one
by the lowercased-prefix test and calls it with all thirteen keyword
arguments, returning its result. -/
def submit_local_train {R : Type} (xgboost_train tf_train : TrainArgs → R)
    (datasource original_sql select validation_select estimator_string
      model_image feature_column_map label_column : String)
    (model_params train_params validation_params : Dict)
    (save load user : String) : R :=
  let train_func :=
    if pyStartswith (pyLower estimator_string) "xgboost" then xgboost_train
    else tf_train
  train_func
    (TrainArgs.mk original_sql model_image estimator_string datasource select
      validation_select model_params train_params validation_params
      feature_column_map label_column save load)

/-- `submit_local_pred`, lines 96-109 of the source.  `Model.load_from_db` is
the `load_from_db` parameter.  The result is either the backend call made
(the Python function returns `None`; its only observable effect is the call)
or the exception raised. -/
def submit_local_pred (load_from_db : String → String → Model)
    (datasource original_sql select model_name label_column : String)
    (model_params : Dict) (result_table user : String) :
    Except PyExn Call :=
  let model := load_from_db datasource model_name
  if model.get_type = EstimatorType.XGBOOST then
    Except.ok (Call.xgboostPred datasource select result_table label_column
      model)
  else
    Except.error (PyExn.notImplementedError
      ("not implemented model type: " ++ (model.get_type).pyStr))

/-- The `validation_metrics` local of `submit_local_evaluate` (lines
120-121): `model_params.get("validation.metrics", "Accuracy").split(",")`. -/
def derivedMetrics (model_params : Dict) : List String :=
  pySplitChar (dictGet model_params "validation.metrics" "Accuracy") ','


/-- `submit_local_evaluate`, lines 112-130 of the source.  The `assert
isinstance(label_fc, FeatureColumn)` failure is `PyExn.assertionError`; the
`get_field_desc()[0]` indexing failure on an empty list is
`PyExn.indexError`. -/
def submit_local_evaluate (load_from_db : String → String → Model)
    (datasource original_sql select model_name : String)
    (model_params : Dict) (result_table user : String) :
    Except PyExn Call :=
  let model := load_from_db datasource model_name
  let validation_metrics := derivedMetrics model_params
  match model.get_meta "label" with
  | some (MetaValue.fc label_fc) =>
      match label_fc.get_field_desc with
      | [] => Except.error PyExn.indexError
      | fd :: rest =>
          let pred_label_name := fd.name
          if model.get_type = EstimatorType.XGBOOST then
            Except.ok (Call.xgboostEvaluate datasource select result_table
              model pred_label_name validation_metrics)
          else
            Except.error (PyExn.notImplementedError
              ("not implemented model type: " ++ (model.get_type).pyStr))
  | _ => Except.error PyExn.assertionError

/-- The loop of `submit_local_explain` (lines 142-146) that builds
`summary_params`: iterate the keys of `model_params` in order; for each key
starting with `"summary."`, assign `model_params[k]` under the key
`k.replace("summary.", "")` (Python `str.replace` replaces every
occurrence). -/
def summaryParamsLoop (acc : Dict) : Dict → Dict
  | [] => acc
  | (k, v) :: rest =>
      summaryParamsLoop
        (if pyStartswith k "summary." then
          dictAssign acc (pyReplace k "summary." "") v
        else acc)
        rest

/-- `summary_params` as computed by `submit_local_explain` from
`model_params`. -/
def summaryParams (model_params : Dict) : Dict :=
  summaryParamsLoop [] model_params

/-- `submit_local_explain`, lines 133-153 of the source. -/
def submit_local_explain (load_from_db : String → String → Model)
    (datasource original_sql select model_name : String)
    (model_params : Dict) (result_table explainer user : String) :
    Except PyExn Call :=
  let model := load_from_db datasource model_name
  let summary_params := summaryParams model_params
  if model.get_type = EstimatorType.XGBOOST then
    Except.ok (Call.xgboostExplain datasource select explainer summary_params
      result_table model)
  else
    Except.error (PyExn.notImplementedError
      ("not implemented model type: " ++ (model.get_type).pyStr))

/-- `submit_local_show_train`, lines 156-166 of the source.
`read_metadata_from_db` is the registry read; `dump_strings rows header` is
`ProtobufWriter(rows, header).dump_strings()`.  The `ok` payload is the line
sequence printed to standard output; `meta.get("original_sql")` yields
`none` when absent, and `if not original_sql` also fires on the empty
string. -/
def submit_local_show_train
    (read_metadata_from_db : String → String → Dict)
    (dump_strings : List (String × String) → List String → List String)
    (datasource model_name : String) : Except PyExn (List String) :=
  let meta := read_metadata_from_db datasource model_name
  match List.lookup "original_sql" meta with
  | none => Except.error (PyExn.valueError "cannot find the train SQL statement")
  | some original_sql =>
      if original_sql = "" then
        Except.error (PyExn.valueError "cannot find the train SQL statement")
      else
        Except.ok (dump_strings [(model_name, original_sql)]
          ["Model", "Train Statement"])

/-- C1: for every estimator-name string whose lowercase form starts with
`"xgboost"`, `submit_local_train` calls the gradient-boosting train routine
`xgboost_train`; for every other estimator-name string it calls the
deep-learning train routine `tf_train`.  The test lowercases the string
first, so the selection is case-insensitive. -/
theorem train_select_by_estimator_lowercase {R : Type}
    (xgboost_train tf_train : TrainArgs → R)
    (datasource original_sql select validation_select estimator_string
      model_image feature_column_map label_column : String)
    (model_params train_params validation_params : Dict)
    (save load user : String) :
    (pyStartswith (pyLower estimator_string) "xgboost" = true →
      submit_local_train xgboost_train tf_train datasource original_sql
          select validation_select estimator_string model_image
          feature_column_map label_column model_params train_params
          validation_params save load user
        = xgboost_train (TrainArgs.mk original_sql model_image
            estimator_string datasource select validation_select model_params
            train_params validation_params feature_column_map label_column
            save load)) ∧
    (pyStartswith (pyLower estimator_string) "xgboost" = false →
      submit_local_train xgboost_train tf_train datasource original_sql
          select validation_select estimator_string model_image
          feature_column_map label_column model_params train_params
          validation_params save load user
        = tf_train (TrainArgs.mk original_sql model_image estimator_string
            datasource select validation_select model_params train_params
            validation_params feature_column_map label_column save load)) := by
  constructor <;> intro h <;> simp [submit_local_train, h]

/-- Witness for C1: `"XGBoost1"` (mixed case) selects the gradient-boosting
routine, `"linear"` selects the deep-learning routine. -/
theorem train_select_by_estimator_lowercase_witness :
    submit_local_train (fun _ => TrainRoutine.xgboostTrain)
        (fun _ => TrainRoutine.tfTrain) "ds" "o" "s" "v" "XGBoost1" "img" "f"
        "l" [] [] [] "sv" "" ""
      = TrainRoutine.xgboostTrain ∧
    submit_local_train (fun _ => TrainRoutine.xgboostTrain)
        (fun _ => TrainRoutine.tfTrain) "ds" "o" "s" "v" "linear" "img" "f"
        "l" [] [] [] "sv" "" ""
      = TrainRoutine.tfTrain :=
  ⟨(train_select_by_estimator_lowercase (fun _ => TrainRoutine.xgboostTrain)
      (fun _ => TrainRoutine.tfTrain) "ds" "o" "s" "v" "XGBoost1" "img" "f"
      "l" [] [] [] "sv" "" "").1 (by decide),
   (train_select_by_estimator_lowercase (fun _ => TrainRoutine.xgboostTrain)
      (fun _ => TrainRoutine.tfTrain) "ds" "o" "s" "v" "linear" "img" "f"
      "l" [] [] [] "sv" "" "").2 (by decide)⟩

/-- C3: `submit_local_train` forwards every input field unchanged to the
chosen train routine under the matching `TrainArgs` field names and returns
exactly whatever that routine returns (its result is the routine's
application, nothing more). -/
theorem train_forwards_all_fields {R : Type}
    (xgboost_train tf_train : TrainArgs → R)
    (datasource original_sql select validation_select estimator_string
      model_image feature_column_map label_column : String)
    (model_params train_params validation_params : Dict)
    (save load user : String) :
    ∃ args : TrainArgs,
      submit_local_train xgboost_train tf_train datasource original_sql
          select validation_select estimator_string model_image
          feature_column_map label_column model_params train_params
          validation_params save load user
        = (if pyStartswith (pyLower estimator_string) "xgboost" then
            xgboost_train else tf_train) args ∧
      args.original_sql = original_sql ∧
      args.model_image = model_image ∧
      args.estimator_string = estimator_string ∧
      args.datasource = datasource ∧
      args.select = select ∧
      args.validation_select = validation_select ∧
      args.model_params = model_params ∧
      args.train_params = train_params ∧
      args.validation_params = validation_params ∧
      args.feature_column_map = feature_column_map ∧
      args.label_column = label_column ∧
      args.save = save ∧
      args.load = load :=
  ⟨TrainArgs.mk original_sql model_image estimator_string datasource select
      validation_select model_params train_params validation_params
      feature_column_map label_column save load,
    rfl, rfl, rfl, rfl, rfl, rfl, rfl, rfl, rfl, rfl, rfl, rfl, rfl, rfl⟩

/-- C7: when the loaded model's type tag is `XGBOOST`, `submit_local_pred`
invokes the predict routine with exactly the arguments `(datasource, select,
result_table, label_column, model)` in that order; the `ok` payload is that
one call and carries no other value (the Python function returns `None`). -/
theorem pred_xgboost_call (load_from_db : String → String → Model)
    (datasource original_sql select model_name label_column : String)
    (model_params : Dict) (result_table user : String)
    (hty : (load_from_db datasource model_name).get_type
      = EstimatorType.XGBOOST) :
    submit_local_pred load_from_db datasource original_sql select model_name
        label_column model_params result_table user
      = Except.ok (Call.xgboostPred datasource select result_table
          label_column (load_from_db datasource model_name)) := by
  simp [submit_local_pred, hty]

/-- Witness for C7 at a concrete XGBOOST model. -/
theorem pred_xgboost_call_witness :
    submit_local_pred (fun _ _ => Model.mk EstimatorType.XGBOOST []) "ds" "o"
        "s" "m" "lc" [] "rt" ""
      = Except.ok (Call.xgboostPred "ds" "s" "rt" "lc"
          (Model.mk EstimatorType.XGBOOST [])) :=
  pred_xgboost_call (fun _ _ => Model.mk EstimatorType.XGBOOST []) "ds" "o"
    "s" "m" "lc" [] "rt" "" rfl

/-- `True` exactly when the dispatch result is a raised
`NotImplementedError`. -/
def raisesNotImplemented : Except PyExn Call → Bool
  | Except.error (PyExn.notImplementedError _) => true
  | _ => false

/-- C2 counterexample: a model whose type tag is not XGBOOST and whose
metadata has no `"label"` feature column makes `submit_local_evaluate` raise
`AssertionError` (the `assert isinstance` on line 123 fires before the type
branch), not `NotImplementedError` as the claim states for every
non-XGBOOST model. -/
theorem evaluate_nonxgboost_assertion_counterexample :
    submit_local_evaluate (fun _ _ => Model.mk EstimatorType.TENSORFLOW [])
        "ds" "o" "s" "m" [] "rt" ""
      = Except.error PyExn.assertionError ∧
    raisesNotImplemented
        (submit_local_evaluate (fun _ _ => Model.mk EstimatorType.TENSORFLOW
          []) "ds" "o" "s" "m" [] "rt" "")
      = false := by
  exact ⟨rfl, rfl⟩

/-- C2 amended: for every model whose loaded type tag is not XGBOOST,
`submit_local_pred` and `submit_local_explain` raise `NotImplementedError`,
and `submit_local_evaluate` does so provided its earlier steps succeed (the
`"label"` metadata entry is a feature column with at least one field
descriptor — otherwise the assertion or indexing failure preempts the type
branch); the raised message contains the string form of the type tag. -/
theorem nonxgboost_raises_notimplemented
    (load_from_db : String → String → Model)
    (datasource original_sql select model_name label_column : String)
    (model_params : Dict) (result_table explainer user : String)
    (hty : (load_from_db datasource model_name).get_type
      ≠ EstimatorType.XGBOOST) :
    (submit_local_pred load_from_db datasource original_sql select model_name
        label_column model_params result_table user
      = Except.error (PyExn.notImplementedError
          ("not implemented model type: "
            ++ ((load_from_db datasource model_name).get_type).pyStr))) ∧
    (submit_local_explain load_from_db datasource original_sql select
        model_name model_params result_table explainer user
      = Except.error (PyExn.notImplementedError
          ("not implemented model type: "
            ++ ((load_from_db datasource model_name).get_type).pyStr))) ∧
    (∀ f d rest,
      (load_from_db datasource model_name).get_meta "label"
          = some (MetaValue.fc f) →
      f.get_field_desc = d :: rest →
      submit_local_evaluate load_from_db datasource original_sql select
          model_name model_params result_table user
        = Except.error (PyExn.notImplementedError
            ("not implemented model type: "
              ++ ((load_from_db datasource model_name).get_type).pyStr))) ∧
    strContains
      ("not implemented model type: "
        ++ ((load_from_db datasource model_name).get_type).pyStr)
      (((load_from_db datasource model_name).get_type).pyStr) := by
  refine ⟨?_, ?_, ?_, ?_⟩
  · simp [submit_local_pred, hty]
  · simp [submit_local_explain, hty]
  · intro f d rest hmeta hfd
    simp [submit_local_evaluate, hmeta, hty]
    rw [hfd]
  · exact ⟨"not implemented model type: ", "", by simp⟩

/-- Witness for C2 amended at a concrete TENSORFLOW model: all three
dispatchers raise the `NotImplementedError` carrying the tag string. -/
theorem nonxgboost_raises_notimplemented_witness :
    (submit_local_pred (fun _ _ => Model.mk EstimatorType.TENSORFLOW
        [("label", MetaValue.fc (FeatureColumn.mk [FieldDesc.mk "class"]))])
        "ds" "o" "s" "m" "lc" [] "rt" ""
      = Except.error (PyExn.notImplementedError
          ("not implemented model type: "
            ++ EstimatorType.TENSORFLOW.pyStr))) ∧
    (submit_local_explain (fun _ _ => Model.mk EstimatorType.TENSORFLOW
        [("label", MetaValue.fc (FeatureColumn.mk [FieldDesc.mk "class"]))])
        "ds" "o" "s" "m" [] "rt" "TreeExplainer" ""
      = Except.error (PyExn.notImplementedError
          ("not implemented model type: "
            ++ EstimatorType.TENSORFLOW.pyStr))) ∧
    (submit_local_evaluate (fun _ _ => Model.mk EstimatorType.TENSORFLOW
        [("label", MetaValue.fc (FeatureColumn.mk [FieldDesc.mk "class"]))])
        "ds" "o" "s" "m" [] "rt" ""
      = Except.error (PyExn.notImplementedError
          ("not implemented model type: "
            ++ EstimatorType.TENSORFLOW.pyStr))) := by
  have h := nonxgboost_raises_notimplemented
    (fun _ _ => Model.mk EstimatorType.TENSORFLOW
      [("label", MetaValue.fc (FeatureColumn.mk [FieldDesc.mk "class"]))])
    "ds" "o" "s" "m" "lc" [] "rt" "TreeExplainer" "" (by decide)
  exact ⟨h.1, h.2.1,
    h.2.2.1 (FeatureColumn.mk [FieldDesc.mk "class"]) (FieldDesc.mk "class")
      [] rfl rfl⟩

/-- C8: in `submit_local_evaluate`, when the loaded model's `"label"`
metadata entry is not a feature column the call fails with the assertion
failure; when it is a feature column (with a first field descriptor) and the
model is XGBOOST, the prediction-label column name passed to the evaluate
routine is the name of that first field descriptor. -/
theorem evaluate_label_feature_column (load_from_db : String → String → Model)
    (datasource original_sql select model_name : String)
    (model_params : Dict) (result_table user : String) :
    ((∀ f : FeatureColumn,
        (load_from_db datasource model_name).get_meta "label"
          ≠ some (MetaValue.fc f)) →
      submit_local_evaluate load_from_db datasource original_sql select
          model_name model_params result_table user
        = Except.error PyExn.assertionError) ∧
    (∀ f d rest,
      (load_from_db datasource model_name).get_meta "label"
          = some (MetaValue.fc f) →
      f.get_field_desc = d :: rest →
      (load_from_db datasource model_name).get_type
          = EstimatorType.XGBOOST →
      submit_local_evaluate load_from_db datasource original_sql select
          model_name model_params result_table user
        = Except.ok (Call.xgboostEvaluate datasource select result_table
            (load_from_db datasource model_name) d.name
            (derivedMetrics model_params))) := by
  constructor
  · intro h
    rcases hm : (load_from_db datasource model_name).get_meta "label" with
      _ | mv
    · simp [submit_local_evaluate, hm]
    · rcases mv with f | s
      · exact absurd hm (h f)
      · simp [submit_local_evaluate, hm]
  · intro f d rest hmeta hfd hty
    simp [submit_local_evaluate, hmeta, hty]
    rw [hfd]

/-- Witness for C8: a non-feature-column label triggers the assertion
failure; a feature-column label with first field `"class"` makes `"class"`
the prediction-label name in the evaluate call. -/
theorem evaluate_label_feature_column_witness :
    (submit_local_evaluate (fun _ _ => Model.mk EstimatorType.XGBOOST
        [("label", MetaValue.other "None")]) "ds" "o" "s" "m" [] "rt" ""
      = Except.error PyExn.assertionError) ∧
    (submit_local_evaluate (fun _ _ => Model.mk EstimatorType.XGBOOST
        [("label", MetaValue.fc (FeatureColumn.mk [FieldDesc.mk "class"]))])
        "ds" "o" "s" "m" [] "rt" ""
      = Except.ok (Call.xgboostEvaluate "ds" "s" "rt"
          (Model.mk EstimatorType.XGBOOST
            [("label",
              MetaValue.fc (FeatureColumn.mk [FieldDesc.mk "class"]))])
          "class" (derivedMetrics []))) :=
  ⟨(evaluate_label_feature_column (fun _ _ => Model.mk EstimatorType.XGBOOST
      [("label", MetaValue.other "None")]) "ds" "o" "s" "m" [] "rt" "").1
      (fun f h => MetaValue.noConfusion (Option.some.inj h)),
   (evaluate_label_feature_column (fun _ _ => Model.mk EstimatorType.XGBOOST
      [("label", MetaValue.fc (FeatureColumn.mk [FieldDesc.mk "class"]))])
      "ds" "o" "s" "m" [] "rt" "").2
      (FeatureColumn.mk [FieldDesc.mk "class"]) (FieldDesc.mk "class") []
      rfl rfl rfl⟩

/-- C4: in `submit_local_evaluate`, the derived metrics list is the value of
`"validation.metrics"` split on `","` when the key is present in
`model_params`, and `["Accuracy"]` when it is absent. -/
theorem evaluate_metrics_derivation (model_params : Dict) :
    (∀ v, List.lookup "validation.metrics" model_params = some v →
      derivedMetrics model_params = pySplitChar v ',') ∧
    (List.lookup "validation.metrics" model_params = none →
      derivedMetrics model_params = ["Accuracy"]) := by
  constructor
  · intro v h
    unfold derivedMetrics dictGet
    rw [h]
  · intro h
    unfold derivedMetrics dictGet
    rw [h]
    decide

/-- Witness for C4: `"Accuracy,F1"` yields `["Accuracy", "F1"]`; an empty
`model_params` yields the default `["Accuracy"]`. -/
theorem evaluate_metrics_derivation_witness :
    derivedMetrics [("validation.metrics", "Accuracy,F1")]
        = ["Accuracy", "F1"] ∧
    derivedMetrics [] = ["Accuracy"] :=
  ⟨((evaluate_metrics_derivation [("validation.metrics", "Accuracy,F1")]).1
      "Accuracy,F1" (by decide)).trans (by decide),
   (evaluate_metrics_derivation []).2 (by decide)⟩

/-- C10: the `"Accuracy"` default applies only when `"validation.metrics"`
is absent: when it is present with the empty-string value, the derived
metrics list is `[""]`, not `["Accuracy"]`. -/
theorem metrics_empty_string_not_default (model_params : Dict)
    (h : List.lookup "validation.metrics" model_params = some "") :
    derivedMetrics model_params = [""] ∧
    derivedMetrics model_params ≠ ["Accuracy"] := by
  have h1 : derivedMetrics model_params = [""] := by
    unfold derivedMetrics dictGet
    rw [h]
    decide
  refine ⟨h1, ?_⟩
  rw [h1]
  decide

/-- Witness for C10 at `model_params = {"validation.metrics": ""}`. -/
theorem metrics_empty_string_not_default_witness :
    derivedMetrics [("validation.metrics", "")] = [""] ∧
    derivedMetrics [("validation.metrics", "")] ≠ ["Accuracy"] :=
  metrics_empty_string_not_default [("validation.metrics", "")] (by decide)

/-- C6: `submit_local_show_train` raises the value error when the metadata
read for the named model has no `"original_sql"` entry or an empty one;
otherwise it serializes the one-row result set `[(model_name,
original_sql)]` with header `["Model", "Train Statement"]` through the
result writer and emits the resulting lines. -/
theorem show_train_behaviour
    (read_metadata_from_db : String → String → Dict)
    (dump_strings : List (String × String) → List String → List String)
    (datasource model_name : String) :
    (List.lookup "original_sql" (read_metadata_from_db datasource model_name)
        = none →
      submit_local_show_train read_metadata_from_db dump_strings datasource
          model_name
        = Except.error
            (PyExn.valueError "cannot find the train SQL statement")) ∧
    (List.lookup "original_sql" (read_metadata_from_db datasource model_name)
        = some "" →
      submit_local_show_train read_metadata_from_db dump_strings datasource
          model_name
        = Except.error
            (PyExn.valueError "cannot find the train SQL statement")) ∧
    (∀ osql,
      List.lookup "original_sql" (read_metadata_from_db datasource
          model_name) = some osql →
      osql ≠ "" →
      submit_local_show_train read_metadata_from_db dump_strings datasource
          model_name
        = Except.ok (dump_strings [(model_name, osql)]
            ["Model", "Train Statement"])) := by
  refine ⟨?_, ?_, ?_⟩
  · intro h
    simp [submit_local_show_train, h]
  · intro h
    simp [submit_local_show_train, h]
  · intro osql h hne
    simp [submit_local_show_train, h, hne]

/-- Witness for C6 with a concrete registry and writer: stored SQL
`"SELECT 1"` is emitted through the writer; an empty metadata map raises the
value error. -/
theorem show_train_behaviour_witness :
    (submit_local_show_train (fun _ _ => [("original_sql", "SELECT 1")])
        (fun rows header => header ++ rows.map Prod.snd) "ds" "m1"
      = Except.ok (["Model", "Train Statement"]
          ++ ([("m1", "SELECT 1")].map Prod.snd))) ∧
    (submit_local_show_train (fun _ _ => [])
        (fun rows header => header ++ rows.map Prod.snd) "ds" "m1"
      = Except.error
          (PyExn.valueError "cannot find the train SQL statement")) :=
  ⟨(show_train_behaviour (fun _ _ => [("original_sql", "SELECT 1")])
      (fun rows header => header ++ rows.map Prod.snd) "ds" "m1").2.2
      "SELECT 1" (by decide) (by decide),
   (show_train_behaviour (fun _ _ => [])
      (fun rows header => header ++ rows.map Prod.snd) "ds" "m1").1
      (by decide)⟩

/-- C9: show-train is deterministic — two calls with the same datasource and
model name whose registry reads return identical stored metadata produce
identical output line sequences. -/
theorem show_train_deterministic
    (read1 read2 : String → String → Dict)
    (dump_strings : List (String × String) → List String → List String)
    (datasource model_name : String)
    (hmeta : read1 datasource model_name = read2 datasource model_name) :
    submit_local_show_train read1 dump_strings datasource model_name
      = submit_local_show_train read2 dump_strings datasource model_name := by
  unfold submit_local_show_train
  rw [hmeta]

/-- Witness for C9: two syntactically different registry reads with the same
stored metadata give the same output. -/
theorem show_train_deterministic_witness :
    submit_local_show_train (fun _ _ => [("original_sql", "SELECT 1")])
        (fun rows header => header) "ds" "m1"
      = submit_local_show_train
          (fun _ _ => [("original_sql", "SELECT 1")] ++ [])
          (fun rows header => header) "ds" "m1" :=
  show_train_deterministic (fun _ _ => [("original_sql", "SELECT 1")])
    (fun _ _ => [("original_sql", "SELECT 1")] ++ [])
    (fun rows header => header) "ds" "m1" (by decide)

/-- The summary sub-map as the spec describes it, amended to Python
`str.replace` semantics: one entry per key of `model_params` starting with
`"summary."`, keyed by that key with every occurrence of `"summary."`
replaced by the empty string, with the value unchanged; other keys
contribute nothing. -/
def summarySubmapSpec (model_params : Dict) : Dict :=
  (model_params.filter (fun p => pyStartswith p.1 "summary.")).map
    (fun p => (pyReplace p.1 "summary." "", p.2))

theorem dictAssign_of_not_mem (d : Dict) (k v : String)
    (h : k ∉ dictKeys d) : dictAssign d k v = d ++ [(k, v)] := by
  induction d with
  | nil => rfl
  | cons p rest ih =>
      rw [dictKeys, List.map_cons, List.mem_cons, not_or] at h
      have hne : ¬(p.1 = k) := fun hh => h.1 hh.symm
      simp [dictAssign, hne, ih h.2]

theorem summaryParamsLoop_append (mp : Dict) :
    ∀ acc : Dict,
      (∀ k, k ∈ dictKeys acc → k ∉ dictKeys (summarySubmapSpec mp)) →
      (dictKeys (summarySubmapSpec mp)).Nodup →
      summaryParamsLoop acc mp = acc ++ summarySubmapSpec mp := by
  induction mp with
  | nil =>
      intro acc hdisj hnodup
      simp [summaryParamsLoop, summarySubmapSpec]
  | cons p rest ih =>
      intro acc hdisj hnodup
      rcases p with ⟨k, v⟩
      by_cases hq : pyStartswith k "summary." = true
      · have hspec : summarySubmapSpec ((k, v) :: rest)
            = (pyReplace k "summary." "", v) :: summarySubmapSpec rest := by
          simp [summarySubmapSpec, List.filter_cons, hq]
        have hkeys : dictKeys (summarySubmapSpec ((k, v) :: rest))
            = pyReplace k "summary." "" :: dictKeys (summarySubmapSpec rest)
            := by
          rw [hspec, dictKeys, List.map_cons]
          rfl
        rw [hkeys] at hdisj hnodup
        have hnotacc : pyReplace k "summary." "" ∉ dictKeys acc :=
          fun hmem => hdisj _ hmem (List.mem_cons_self _ _)
        have hnotrest :
            pyReplace k "summary." "" ∉ dictKeys (summarySubmapSpec rest) :=
          (List.nodup_cons.mp hnodup).1
        have hrestnodup := (List.nodup_cons.mp hnodup).2
        have step : summaryParamsLoop acc ((k, v) :: rest)
            = summaryParamsLoop
                (acc ++ [(pyReplace k "summary." "", v)]) rest := by
          simp [summaryParamsLoop, hq,
            dictAssign_of_not_mem acc (pyReplace k "summary." "") v hnotacc]
        rw [step,
          ih (acc ++ [(pyReplace k "summary." "", v)]) ?_ hrestnodup, hspec]
        · simp
        · intro k2 hk2
          rw [dictKeys, List.map_append] at hk2
          rcases List.mem_append.mp hk2 with hk2a | hk2b
          · exact fun hmem =>
              hdisj k2 hk2a (List.mem_cons_of_mem _ hmem)
          · have : k2 = pyReplace k "summary." "" := by
              simpa using hk2b
            rw [this]
            exact hnotrest
      · rw [Bool.not_eq_true] at hq
        have hspec : summarySubmapSpec ((k, v) :: rest)
            = summarySubmapSpec rest := by
          simp [summarySubmapSpec, List.filter_cons, hq]
        rw [hspec] at hdisj hnodup
        have step : summaryParamsLoop acc ((k, v) :: rest)
            = summaryParamsLoop acc rest := by
          simp [summaryParamsLoop, hq]
        rw [step, ih acc hdisj hnodup, hspec]

/-- C5 counterexample: the source strips with Python `str.replace`, which
removes every occurrence of `"summary."`, not only the leading prefix.  For
`model_params = {"summary.summary.x": "v"}` the summary sub-map is
`{"x": "v"}`, whereas stripping only the leading `"summary."` would give
`{"summary.x": "v"}`; the explain dispatch passes the former to the backend.
-/
theorem summary_submap_strip_counterexample :
    summaryParams [("summary.summary.x", "v")] = [("x", "v")] ∧
    summaryParams [("summary.summary.x", "v")] ≠ [("summary.x", "v")] ∧
    submit_local_explain (fun _ _ => Model.mk EstimatorType.XGBOOST []) "ds"
        "o" "s" "m" [("summary.summary.x", "v")] "rt" "TreeExplainer" ""
      = Except.ok (Call.xgboostExplain "ds" "s" "TreeExplainer" [("x", "v")]
          "rt" (Model.mk EstimatorType.XGBOOST [])) :=
  ⟨by decide, by decide, rfl⟩

/-- C5 amended: the summary sub-map contains exactly one entry for each key
of `model_params` that starts with `"summary."`, whose key is that key with
every occurrence of `"summary."` replaced by the empty string (Python
`str.replace`, not a leading-prefix strip) and whose value is unchanged;
keys not starting with `"summary."` contribute no entry.  (Stated under the
hypothesis that the replaced keys are pairwise distinct; otherwise a later
entry overwrites an earlier one.) -/
theorem summary_submap_replace_all (model_params : Dict)
    (hnodup : (dictKeys (summarySubmapSpec model_params)).Nodup) :
    summaryParams model_params = summarySubmapSpec model_params := by
  have h := summaryParamsLoop_append model_params []
    (by intro k hk; simp [dictKeys] at hk) hnodup
  simpa [summaryParams] using h

/-- Witness for C5 amended on the spec's own example:
`{"summary.plot_type": "bar", "other": "x"}` yields exactly
`{"plot_type": "bar"}`. -/
theorem summary_submap_replace_all_witness :
    summaryParams [("summary.plot_type", "bar"), ("other", "x")]
      = [("plot_type", "bar")] := by
  have h := summary_submap_replace_all
    [("summary.plot_type", "bar"), ("other", "x")] (by decide)
  rw [h]
  decide
